import Mathlib

/-!
Verification development for the `esq` command-line client.

This file gives a shallow embedding of the time-windowed, cursor-paginated
extraction engine of the repository (`src/commands/cat.rs`,
`src/elasticsearch/builder.rs`, `src/elasticsearch/client.rs`) and proves
properties of it.

Modelling conventions:
* JSON documents (`serde_json::Value`) are modelled by the inductive `Json`
  below; objects are association lists in insertion order (key order is
  irrelevant to any property proved here, all keys are distinct).
* `u32` values are modelled as `Nat`; where overflow or truncation matters
  the reduction modulo `2^32` is made explicit (`u32cast`).
* The external natural-language date parser (the `dateparser` crate) is an
  excluded collaborator; it is modelled by an explicit function parameter
  `parseDate : String → Option String` returning the RFC3339 rendering of the
  parsed date (`dateparser::parse` followed by `to_rfc3339`), or `none` on
  parse failure.
* The HTTP transport is an excluded collaborator; search calls are modelled
  by an oracle `Json → Option Json` from request body to response body
  (`none` = transport or body-decode failure), and the point-in-time (PIT)
  open/close calls by explicit outcome parameters.
* Rust's `str::split` on a single character and `str::trim` are modelled by
  the character-list functions `charSplit` / `strTrim` below.
-/

namespace Esq

/-! ## JSON values (model of `serde_json::Value`) -/

inductive Json where
  | null
  | bool (b : Bool)
  | num (n : Nat)
  | str (s : String)
  | arr (xs : List Json)
  | obj (kvs : List (String × Json))
deriving Repr

/-- Field access `v["k"]` of `serde_json`: member lookup on objects, `Null`
on anything else or when the key is absent. -/
def Json.getD (j : Json) (k : String) : Json :=
  match j with
  | .obj kvs =>
    match kvs.find? (fun kv => kv.1 == k) with
    | some kv => kv.2
    | none => .null
  | _ => .null

/-- Method `Value::as_array`. -/
def Json.asArray (j : Json) : Option (List Json) :=
  match j with
  | .arr xs => some xs
  | _ => none

/-! ## String helpers (model of Rust `str::split(char)` and `str::trim`) -/

/-- Split a character list at every occurrence of `sep`; always returns at
least one (possibly empty) group, like Rust `str::split` and also like
`String::splitOn` for a single-character separator. -/
def charSplit (sep : Char) : List Char → List (List Char)
  | [] => [[]]
  | c :: rest =>
    match charSplit sep rest with
    | [] => [[]]
    | g :: gs => if c = sep then [] :: g :: gs else (c :: g) :: gs

/-- Rust `s.split(sep)`, collected to a list. -/
def strSplit (s : String) (sep : Char) : List String :=
  (charSplit sep s.toList).map (fun cs => String.mk cs)

/-- Rust `str::trim` (whitespace from both ends). -/
def strTrim (s : String) : String :=
  String.mk (((s.toList.dropWhile Char.isWhitespace).reverse.dropWhile
    Char.isWhitespace).reverse)

/-- Rust `str::is_empty`, on the character list model. -/
def strIsEmpty (s : String) : Bool :=
  s.toList.isEmpty

/-! ## Constants (cat.rs lines 13-16, client state) -/

def BATCH_SIZE : Nat := 1000
def DEFAULT_NUMBER_OF_LINES : Nat := 10
def MAX_NUMBER_OF_LINES : Nat := 5000
def LATENCY : String := "1m"

/-- Constant `u32::MAX`, the sentinel used by `cat.rs` for an unbounded document
budget. -/
def U32_MAX : Nat := 4294967295

/-- Truncating cast `as u32`. -/
def u32cast (n : Nat) : Nat := n % 4294967296

/-! ## Errors (utils.rs, the variants reachable from the cat command) -/

inductive ESQError where
  | ConfigError (msg : String)
  | NetworkError (msg : String)
  | ParseError (msg : String)
  | DateParseError (msg : String)
  | ValidationError (msg : String)
  | ESError (msg : String)
deriving Repr, DecidableEq

/-! ## Parameter validation (cat.rs lines 59-209) -/

inductive ParameterCombination where
  | Around
  | To
  | From
  | FromTo
  | Follow
  | none
deriving Repr, DecidableEq

structure WhereFilter where
  field : String
  value : String
deriving Repr, DecidableEq

structure ValidationResult where
  mode : ParameterCombination
  select_fields : Option (List String)
  where_filters : Option (List WhereFilter)
deriving Repr, DecidableEq

/-- The select-clause branch of `validate_parameters` (cat.rs 104-122). -/
def parse_select (select_clause : Option String) :
    Except ESQError (Option (List String)) :=
  match select_clause with
  | Option.none => .ok Option.none
  | some sel =>
    if strIsEmpty sel then
      .error (.ValidationError "Select clause cannot be empty")
    else
      let fields := ((strSplit sel ',').map strTrim).filter
        (fun s => !(strIsEmpty s))
      if fields.isEmpty then
        .error (.ValidationError "Select clause must contain at least one field")
      else
        .ok (some fields)

/-- One `field:value` pair of the where clause (cat.rs 132-144): split on
every colon, demand exactly two parts, both non-empty after trimming. -/
def parse_where_pair (pair : String) : Except ESQError WhereFilter :=
  match strSplit pair ':' with
  | [f, v] =>
    if strIsEmpty (strTrim f) || strIsEmpty (strTrim v) then
      .error (.ValidationError
        ("Invalid where clause format. Expected field:value, got " ++ pair))
    else
      .ok ⟨strTrim f, strTrim v⟩
  | _ =>
    .error (.ValidationError
      ("Invalid where clause format. Expected field:value, got " ++ pair))

/-- Rust `Iterator::collect::<Result<Vec<_>, _>>`: map each element, stop at
the first error. -/
def collectPairs : List String → Except ESQError (List WhereFilter)
  | [] => .ok []
  | x :: xs =>
    match parse_where_pair x with
    | .error e => .error e
    | .ok w =>
      match collectPairs xs with
      | .error e => .error e
      | .ok ws => .ok (w :: ws)

/-- The where-clause branch of `validate_parameters` (cat.rs 124-149);
`collect` on `Result` stops at the first bad pair. -/
def parse_where (where_clause : Option String) :
    Except ESQError (Option (List WhereFilter)) :=
  match where_clause with
  | Option.none => .ok Option.none
  | some ws =>
    if strIsEmpty ws then
      .error (.ValidationError "Where clause cannot be empty")
    else
      (collectPairs (strSplit ws ',')).map some

/-- The mode-resolution branch of `validate_parameters` (cat.rs 151-202). -/
def resolve_mode (around fromOpt toOpt : Option String) (lines : Nat)
    (follow : Bool) : Except ESQError ParameterCombination :=
  if around.isSome then
    if fromOpt.isSome || toOpt.isSome then
      .error (.ValidationError
        "The parameters --to and --from cannot be used at the same time as --around.")
    else if follow then
      .error (.ValidationError
        "The parameter --follow cannot be used at the same time as --around.")
    else if lines > MAX_NUMBER_OF_LINES then
      .error (.ValidationError
        "In combination with --around, the -n parameter has a maximum value of 5000.")
    else
      .ok .Around
  else if toOpt.isSome then
    if follow then
      .error (.ValidationError
        "The parameter --follow cannot be used at the same time as --to.")
    else if lines > MAX_NUMBER_OF_LINES then
      .error (.ValidationError
        "In combination with --to, the -n parameter has a maximum value of 5000.")
    else if fromOpt.isSome then
      if lines ≠ DEFAULT_NUMBER_OF_LINES then
        .error (.ValidationError
          "You cannot use -n in combination with a full time range (--from and --to).")
      else
        .ok .FromTo
    else
      .ok .To
  else if fromOpt.isSome then
    if follow then
      .error (.ValidationError
        "The parameter --follow cannot be used at the same time as --from.")
    else
      .ok .From
  else if follow then
    .ok .Follow
  else
    .ok .none

/-- Function `validate_parameters` (cat.rs 95-209): select clause, then where clause,
then mode resolution; the first failure wins. -/
def validate_parameters (around fromOpt toOpt : Option String) (lines : Nat)
    (follow : Bool) (select_clause where_clause : Option String) :
    Except ESQError ValidationResult := do
  let select_fields ← parse_select select_clause
  let where_filters ← parse_where where_clause
  let mode ← resolve_mode around fromOpt toOpt lines follow
  return ⟨mode, select_fields, where_filters⟩

/-! ## Sort-order literals (the `json!` sort literals of cat.rs/builder.rs) -/

/-- Literal `[{"@timestamp": {"order": "asc"}}]`. -/
def sortTsAsc : Json :=
  .arr [.obj [("@timestamp", .obj [("order", .str "asc")])]]

/-- Literal `[{"@timestamp": {"order": "asc"}}, {"_shard_doc": {"order": "asc"}}]`. -/
def sortTsAscShardAsc : Json :=
  .arr [.obj [("@timestamp", .obj [("order", .str "asc")])],
        .obj [("_shard_doc", .obj [("order", .str "asc")])]]

/-- Literal `[{"@timestamp": {"order": "desc"}}]`. -/
def sortTsDesc : Json :=
  .arr [.obj [("@timestamp", .obj [("order", .str "desc")])]]

/-- Literal `[{"@timestamp": {"order": "desc"}}, {"_shard_doc": {"order": "asc"}}]`. -/
def sortTsDescShardAsc : Json :=
  .arr [.obj [("@timestamp", .obj [("order", .str "desc")])],
        .obj [("_shard_doc", .obj [("order", .str "asc")])]]

/-! ## `gen_query_match` (cat.rs 365-393) -/

def gen_query_match (filters : Option (List WhereFilter)) : Option Json :=
  filters.map fun fs =>
    match fs with
    | [] => .obj [("match_all", .obj [])]
    | [f] => .obj [("match", .obj [(f.field, .str f.value)])]
    | _ => .obj [("bool", .obj [("must",
        .arr (fs.map fun f => .obj [("match", .obj [(f.field, .str f.value)])]))])]

/-! ## `SearchQueryBuilder` (builder.rs) -/

structure SearchQueryBuilder where
  sort_order : Json
  size : Nat
  source_fields : Option (List String)
  search_after : Option Json
  query_range : Option Json
  query_match : Option Json
  use_pit : Bool
deriving Repr

namespace SearchQueryBuilder

/-- The `Default` impl (builder.rs 16-28). -/
def new : SearchQueryBuilder :=
  ⟨sortTsAsc, 1000, Option.none, Option.none, Option.none, Option.none, false⟩

def with_sort_order (b : SearchQueryBuilder) (sort_order : Json) :
    SearchQueryBuilder :=
  { b with sort_order := sort_order }

def with_size (b : SearchQueryBuilder) (size : Nat) : SearchQueryBuilder :=
  { b with size := size }

def with_source_fields (b : SearchQueryBuilder) (fields : Option (List String)) :
    SearchQueryBuilder :=
  { b with source_fields := fields }

def with_search_after (b : SearchQueryBuilder) (search_after : Json) :
    SearchQueryBuilder :=
  { b with search_after := some search_after }

def with_query_match (b : SearchQueryBuilder) (query_match : Option Json) :
    SearchQueryBuilder :=
  { b with query_match := query_match }

/-- Method `with_time_range` (builder.rs 60-99). `parseDate` models the external
`dateparser::parse ∘ to_rfc3339` composite; the produced range clause is
half-open: `gte` from the parsed `from`, `lt` from the parsed `to` or
`now-<latency>` when `to` is absent. -/
def with_time_range (b : SearchQueryBuilder) (parseDate : String → Option String)
    (fromOpt toOpt : Option String) (latency : String) :
    Except ESQError SearchQueryBuilder :=
  match
    (match fromOpt with
     | Option.none => Except.ok ([] : List (String × Json))
     | some s =>
       match parseDate s with
       | some dt => Except.ok [("gte", Json.str dt)]
       | Option.none => Except.error (ESQError.DateParseError ("Invalid from date: " ++ s)))
  with
  | .error e => .error e
  | .ok gtePart =>
    match
      (match toOpt with
       | some s =>
         match parseDate s with
         | some dt => Except.ok [("lt", Json.str dt)]
         | Option.none => Except.error (ESQError.DateParseError ("Invalid to date: " ++ s))
       | Option.none => Except.ok [("lt", Json.str ("now-" ++ latency))])
    with
    | .error e => .error e
    | .ok ltPart =>
      let rangeJson : Json :=
        .obj [("range", .obj [("@timestamp", .obj (gtePart ++ ltPart))])]
      .ok { b with query_range := some rangeJson }

/-- Method `with_pit` (builder.rs 101-108): stores the flag AND, when `true`,
overwrites the sort order with the compound PIT sort. -/
def with_pit (b : SearchQueryBuilder) (use_pit : Bool) : SearchQueryBuilder :=
  let b := { b with use_pit := use_pit }
  if use_pit then { b with sort_order := sortTsAscShardAsc } else b

/-- Method `build` (builder.rs 110-150). -/
def build (b : SearchQueryBuilder) : Json :=
  .obj (
    [("sort", b.sort_order), ("size", .num b.size)]
    ++ (match b.source_fields with
        | some [] => [("_source", Json.bool false)]
        | some fs => [("_source", Json.arr (fs.map Json.str))]
        | Option.none => [])
    ++ (match b.search_after with
        | some sa => [("search_after", sa)]
        | Option.none => [])
    ++ (match b.query_range, b.query_match with
        | some r, some m =>
          [("query", Json.obj [("bool", Json.obj [("must", Json.arr [r, m])])])]
        | some r, Option.none => [("query", r)]
        | Option.none, some m => [("query", m)]
        | Option.none, Option.none => []))

end SearchQueryBuilder

/-! ## Extraction plan (cat.rs 211-321) -/

structure SeekOriginParameters where
  datetime : Option String
  size : Nat
deriving Repr, DecidableEq

structure ExtractionParameters where
  use_pit : Bool
  total_docs : Nat
  query_match : Option Json
  search_after : Option Json
  seek_origin : Option SeekOriginParameters
  sort_order : Json
  sleep_between_batches : Bool
deriving Repr

/-- Function `ExtractionParameters::from_mode` (cat.rs 229-303). -/
def ExtractionParameters.from_mode (validation : ValidationResult) (lines : Nat)
    (around toOpt : Option String) : Except ESQError ExtractionParameters :=
  match validation.mode with
  | .Around => .ok ⟨true, lines, gen_query_match validation.where_filters,
      Option.none, some ⟨around, lines / 2⟩, sortTsAscShardAsc, false⟩
  | .To => .ok ⟨true, lines, gen_query_match validation.where_filters,
      Option.none, some ⟨toOpt, lines⟩, sortTsAscShardAsc, false⟩
  | .From => .ok ⟨false, lines, gen_query_match validation.where_filters,
      Option.none, Option.none, sortTsAsc, false⟩
  | .FromTo => .ok ⟨true, U32_MAX, gen_query_match validation.where_filters,
      Option.none, Option.none, sortTsAscShardAsc, false⟩
  | .Follow => .ok ⟨false, U32_MAX, gen_query_match validation.where_filters,
      Option.none, some ⟨Option.none, lines⟩, sortTsAsc, true⟩
  | .none => .ok ⟨false, lines, gen_query_match validation.where_filters,
      Option.none, some ⟨Option.none, lines⟩, sortTsAsc, false⟩

/-- Method `ExtractionParameters::should_stop` (cat.rs 305-316); the `&mut u32`
budget is modelled by returning the updated budget next to the stop flag.
`hits_len as u32` is the truncating cast `u32cast`. -/
def ExtractionParameters.should_stop (p : ExtractionParameters)
    (hits_len : Nat) (remaining_docs : Nat) : Bool × Nat :=
  if p.sleep_between_batches then
    (false, remaining_docs)
  else if remaining_docs ≠ U32_MAX then
    let r := remaining_docs - u32cast hits_len
    (decide (r = 0), r)
  else
    (false, remaining_docs)

/-! ## Anchor probe (`seek_origin`, cat.rs 324-363) -/

/-- The probe request built by `seek_origin` (cat.rs 327-355), split off at
the `es.search` call: `none` when the plan has no seek parameters
(`params.seek_origin.as_ref()?`) or the anchor date string fails to parse
(the `return None` at cat.rs 349). Note that `with_sort_order` runs AFTER
`with_pit`, so the descending probe sort survives the `with_pit` overwrite,
and that the anchor string is re-rendered through `parseDate` before being
handed to `with_time_range`. -/
def seek_origin_request (parseDate : String → Option String)
    (params : ExtractionParameters) : Option Json :=
  match params.seek_origin with
  | Option.none => Option.none
  | some seek_params =>
    let qb := ((((SearchQueryBuilder.new.with_size (seek_params.size + 1)).with_source_fields
      (some [])).with_pit params.use_pit).with_query_match params.query_match)
    let qb :=
      if params.use_pit then qb.with_sort_order sortTsDescShardAsc
      else qb.with_sort_order sortTsDesc
    match seek_params.datetime with
    | some dt =>
      match parseDate dt with
      | some parsed_date =>
        match qb.with_time_range parseDate Option.none (some parsed_date) LATENCY with
        | .ok qb => some qb.build
        | .error _ => Option.none
      | Option.none => Option.none
    | Option.none =>
      match qb.with_time_range parseDate Option.none Option.none LATENCY with
      | .ok qb => some qb.build
      | .error _ => Option.none

/-- Function `seek_origin` (cat.rs 324-363): send the probe and return the sort-key
tuple of the last hit; `none` when no probe is built, the search fails, or
the response carries no hit array / no hits. `search` is the transport
oracle. -/
def seek_origin (parseDate : String → Option String)
    (search : Json → Option Json) (params : ExtractionParameters) :
    Option Json :=
  (seek_origin_request parseDate params).bind fun q =>
    (search q).bind fun response =>
      (((response.getD "hits").getD "hits").asArray).bind fun hits =>
        (hits.getLast?).map fun last_hit => last_hit.getD "sort"

/-! ## The cat command (cat.rs 395-481) -/

/-- The pre-loop phase of `handle_cat_command` (cat.rs 412-438): validate,
derive the extraction plan, seed the cursor by the anchor probe when the
plan has one, and build the base query builder shared by every batch.
PIT creation (cat.rs 419-421) is a client side effect modelled separately
by `run_cat_snapshot` below. -/
def cat_prepare (parseDate : String → Option String)
    (search : Json → Option Json) (around fromOpt toOpt : Option String)
    (lines : Nat) (follow : Bool) (select_clause where_clause : Option String) :
    Except ESQError (ValidationResult × ExtractionParameters × SearchQueryBuilder) := do
  let validation ← validate_parameters around fromOpt toOpt lines follow
    select_clause where_clause
  let params ← ExtractionParameters.from_mode validation lines around toOpt
  let params :=
    if params.seek_origin.isSome then
      { params with search_after := seek_origin parseDate search params }
    else params
  let query_builder ← ((((SearchQueryBuilder.new.with_sort_order
      params.sort_order).with_pit params.use_pit).with_query_match
      params.query_match).with_source_fields
      validation.select_fields).with_time_range parseDate fromOpt toOpt LATENCY
  return (validation, params, query_builder)

/-- One batch request of the pagination loop (cat.rs 448-455): the shared
builder, this batch's size, and the cursor when one is set. -/
def cat_request (query_builder : SearchQueryBuilder) (current_size : Nat)
    (search_after : Option Json) : Json :=
  let b := query_builder.with_size current_size
  let b :=
    match search_after with
    | some last_sort => b.with_search_after last_sort
    | Option.none => b
  b.build

/-- The sleep constant of the polling loop, `Duration::from_secs(1)`
(cat.rs 476). -/
def POLL_SLEEP_SECS : Nat := 1

/-- The size/budget/termination skeleton of the pagination loop
(cat.rs 441-478), driven by the trace of hit counts the server returns for
the successive batch requests. Returns the list of requested batch sizes
and whether the loop terminated; `(.., false)` means the response trace ran
out with the loop still running. `cap` is the fixed batch cap, `BATCH_SIZE`
(= 1000) in the source; it is kept as a parameter so the batching
arithmetic can also be stated at the cap of the specification example. -/
def cat_loop_budget (cap : Nat) (p : ExtractionParameters) :
    Nat → List Nat → List Nat × Bool
  | _remaining, [] => ([], false)
  | remaining, hits :: rest =>
    let current_size :=
      if !p.sleep_between_batches then min remaining cap else cap
    if hits = 0 ∧ !p.sleep_between_batches then
      ([current_size], true)
    else
      let (stop, r) := p.should_stop hits remaining
      if stop then
        ([current_size], true)
      else
        let (sizes, fin) := cat_loop_budget cap p r rest
        (current_size :: sizes, fin)

/-- The trace of hit counts of a server that always serves each request in
full: every batch returns exactly the `min remaining cap` documents that
were requested, until the budget is exhausted. Fuel-indexed helper; fuel
`b` suffices for budget `b` whenever `0 < cap`. -/
def full_batch_aux (cap : Nat) : Nat → Nat → List Nat
  | 0, _ => []
  | _fuel + 1, 0 => []
  | fuel + 1, b + 1 =>
    min (b + 1) cap :: full_batch_aux cap fuel ((b + 1) - min (b + 1) cap)

def full_batch_trace (cap b : Nat) : List Nat :=
  full_batch_aux cap b b

/-! ## Snapshot (PIT) lifecycle (client.rs) -/

/-- The PIT-relevant state of `ElasticsearchClient`, instrumented with the
mock-transport call counters for PIT open and PIT close requests. -/
structure ClientState where
  pit_id : Option String
  open_reqs : Nat
  close_reqs : Nat
deriving Repr, DecidableEq

def ClientState.new : ClientState := ⟨Option.none, 0, 0⟩

/-- Method `create_pit` (client.rs 35-54): issues one open request; `resp` is the
transport outcome (`none` = send/decode failure, `some r` = response with
optional `id` field). The id is stored only when present; a missing id is
the `Invalid PIT response` protocol error. -/
def create_pit (resp : Option (Option String)) (s : ClientState) :
    ClientState × Option ESQError :=
  let s := { s with open_reqs := s.open_reqs + 1 }
  match resp with
  | Option.none => (s, some (.NetworkError "send failed"))
  | some Option.none => (s, some (.ESError "Invalid PIT response"))
  | some (some id) => ({ s with pit_id := some id }, Option.none)

/-- Method `delete_pit` (client.rs 56-68): a close request is sent only when a PIT
id is held; on transport success the local id is cleared, on failure the
error is returned (and, per the source, the id is not cleared since the
`?` fires before the assignment). Without an id the call is a no-op. -/
def delete_pit (closeOk : Bool) (s : ClientState) :
    ClientState × Option ESQError :=
  match s.pit_id with
  | Option.none => (s, Option.none)
  | some _ =>
    let s := { s with close_reqs := s.close_reqs + 1 }
    if closeOk then ({ s with pit_id := Option.none }, Option.none)
    else (s, some (.NetworkError "send failed"))

/-- The `Drop` impl (client.rs 12-18): calls `delete_pit` and prints any
error to stderr instead of propagating it. The second component records
whether a diagnostic was printed. -/
def drop_client (closeOk : Bool) (s : ClientState) : ClientState × Bool :=
  let (s, e) := delete_pit closeOk s
  (s, e.isSome)

/-- The snapshot lifecycle of one `handle_cat_command` run (cat.rs 414-480
as seen by the client): create a PIT when the plan requires one, run the
body (searching/emitting, abstracted to its success flag), and let the
scoped `Drop` release run on every exit path — after a create failure, a
body failure, or normal completion. Returns the final instrumented client
state and the command result. -/
def run_cat_snapshot (use_pit : Bool) (createResp : Option (Option String))
    (bodyOk : Bool) (closeOk : Bool) : ClientState × Option ESQError :=
  let bodyErr : Option ESQError :=
    if bodyOk then Option.none else some (.NetworkError "search failed")
  if use_pit then
    let (s, e) := create_pit createResp ClientState.new
    match e with
    | some err => ((drop_client closeOk s).1, some err)
    | Option.none => ((drop_client closeOk s).1, bodyErr)
  else
    ((drop_client closeOk ClientState.new).1, bodyErr)

/-! ## Specification-side mode resolution (for the refinement claim) -/

/-- The mode-resolution precedence as the specification words it
(spec §4.1): first match wins on the four mode-determining inputs. This is
the claim-side definition, to be compared with `resolve_mode` above. -/
def spec_mode (anchorSet rangeStartSet rangeEndSet followSet : Bool) :
    ParameterCombination :=
  if anchorSet then .Around
  else if rangeEndSet then (if rangeStartSet then .FromTo else .To)
  else if rangeStartSet then .From
  else if followSet then .Follow
  else .none

/-- A concrete stand-in for the external date parser, used by the
concrete-input theorems: it accepts exactly the date 2024-01-01 and is
closed under its own RFC3339 rendering, as `dateparser::parse` is. -/
def demoParse : String → Option String := fun s =>
  if s = "2024-01-01" then some "2024-01-01T00:00:00+00:00"
  else if s = "2024-01-01T00:00:00+00:00" then some "2024-01-01T00:00:00+00:00"
  else Option.none

/-! ## Supporting lemmas -/

theorem build_getD_sort (b : SearchQueryBuilder) :
    (b.build).getD "sort" = b.sort_order := by
  simp [SearchQueryBuilder.build, Json.getD]

theorem build_getD_size (b : SearchQueryBuilder) :
    (b.build).getD "size" = .num b.size := by
  simp [SearchQueryBuilder.build, Json.getD, List.find?]

theorem build_getD_source_false (b : SearchQueryBuilder)
    (h : b.source_fields = some []) :
    (b.build).getD "_source" = .bool false := by
  simp [SearchQueryBuilder.build, Json.getD, List.find?, h]

theorem build_getD_query_of_range (b : SearchQueryBuilder) (r : Json)
    (hr : b.query_range = some r) (hm : b.query_match = Option.none) :
    (b.build).getD "query" = r := by
  rcases hsf : b.source_fields with _ | ⟨_ | ⟨f, fs⟩⟩ <;>
  rcases hsa : b.search_after with _ | sa <;>
  simp [SearchQueryBuilder.build, Json.getD, List.find?, hr, hm, hsf, hsa]

theorem with_time_range_fields (b : SearchQueryBuilder)
    (pd : String → Option String) (fo t : Option String) (l : String)
    (b' : SearchQueryBuilder) (h : b.with_time_range pd fo t l = .ok b') :
    b'.sort_order = b.sort_order ∧ b'.size = b.size
    ∧ b'.source_fields = b.source_fields ∧ b'.search_after = b.search_after
    ∧ b'.query_match = b.query_match ∧ b'.use_pit = b.use_pit
    ∧ ∃ r, b'.query_range = some r := by
  unfold SearchQueryBuilder.with_time_range at h
  split at h
  · exact absurd h (by simp)
  · split at h
    · exact absurd h (by simp)
    · simp only [Except.ok.injEq] at h
      subst h
      exact ⟨rfl, rfl, rfl, rfl, rfl, rfl, _, rfl⟩

theorem except_bind_ok {α β : Type} {x : Except ESQError α}
    {f : α → Except ESQError β} {b : β} (h : (x >>= f) = .ok b) :
    ∃ a, x = .ok a ∧ f a = .ok b := by
  cases x with
  | error e => simp [Bind.bind, Except.bind] at h
  | ok a => exact ⟨a, rfl, by simpa [Bind.bind, Except.bind] using h⟩

theorem resolve_mode_ok {around fromOpt toOpt : Option String} {lines : Nat}
    {follow : Bool} {m : ParameterCombination}
    (h : resolve_mode around fromOpt toOpt lines follow = .ok m) :
    m = spec_mode around.isSome fromOpt.isSome toOpt.isSome follow := by
  unfold resolve_mode at h
  unfold spec_mode
  split_ifs at h <;> simp_all

/-! ## Claim C4 -/

/-- C4: for every combination of the raw option values on which validation
succeeds, the resolved mode follows the first-match-wins precedence of the
specification: anchor set → Around; else range-end set → FromTo when
range-start is also set, To otherwise; else range-start set → From; else
follow flag → Follow; else None. -/
theorem C4_mode_precedence (around fromOpt toOpt : Option String)
    (lines : Nat) (follow : Bool) (select_clause where_clause : Option String)
    (v : ValidationResult)
    (h : validate_parameters around fromOpt toOpt lines follow select_clause
      where_clause = .ok v) :
    v.mode = spec_mode around.isSome fromOpt.isSome toOpt.isSome follow := by
  unfold validate_parameters at h
  obtain ⟨sf, hsf, h⟩ := except_bind_ok h
  obtain ⟨wf, hwf, h⟩ := except_bind_ok h
  obtain ⟨m, hm, h⟩ := except_bind_ok h
  simp only [pure, Except.pure, Except.ok.injEq] at h
  subst h
  exact resolve_mode_ok hm

theorem C4_mode_precedence_witness :
    (⟨.Around, Option.none, Option.none⟩ : ValidationResult).mode
      = spec_mode true false false false :=
  C4_mode_precedence (some "2024-01-01") Option.none Option.none 10 false
    Option.none Option.none ⟨.Around, Option.none, Option.none⟩ rfl

/-! ## Claim C10 -/

theorem parse_where_pair_error_shape (x : String) (e : ESQError)
    (h : parse_where_pair x = .error e) : ∃ msg, e = .ValidationError msg := by
  unfold parse_where_pair at h
  split at h
  · split_ifs at h
    injection h with h2
    exact ⟨_, h2.symm⟩
  · injection h with h2
    exact ⟨_, h2.symm⟩

theorem parse_select_error_shape (sc : Option String) (e : ESQError)
    (h : parse_select sc = .error e) : ∃ msg, e = .ValidationError msg := by
  cases sc with
  | none => exact absurd h (by simp [parse_select])
  | some sel =>
    unfold parse_select at h
    by_cases h1 : strIsEmpty sel
    · simp only [h1, if_true, Except.error.injEq] at h
      exact ⟨_, h.symm⟩
    · by_cases h2 : (((strSplit sel ',').map strTrim).filter
        (fun s => !(strIsEmpty s))).isEmpty
      · simp only [h1, h2, if_true, if_false, Bool.false_eq_true,
          Except.error.injEq] at h
        exact ⟨_, h.symm⟩
      · simp [h1, h2] at h

theorem collectPairs_error (l : List String) (x : String) (hx : x ∈ l)
    (e : ESQError) (hf : parse_where_pair x = .error e) :
    ∃ msg, collectPairs l = .error (.ValidationError msg) := by
  induction l with
  | nil => cases hx
  | cons hd tl ih =>
    cases hh : parse_where_pair hd with
    | error e' =>
      obtain ⟨msg, rfl⟩ := parse_where_pair_error_shape hd e' hh
      exact ⟨msg, by simp [collectPairs, hh]⟩
    | ok w =>
      rcases List.mem_cons.mp hx with rfl | hx'
      · rw [hh] at hf
        exact absurd hf (by simp)
      · obtain ⟨msg, hmm⟩ := ih hx'
        exact ⟨msg, by simp [collectPairs, hh, hmm]⟩

/-- C10: any where-clause spec containing a pair that splits on colons into
three or more parts — in particular a pair whose value itself contains a
colon, such as url:http://host — makes parameter validation fail with a
ValidationError: each comma-separated pair must split on the colon into
exactly two non-empty parts and there is no escaping mechanism. -/
theorem C10_where_value_with_colon (around fromOpt toOpt : Option String)
    (lines : Nat) (follow : Bool) (select_clause : Option String)
    (ws pair : String) (hmem : pair ∈ strSplit ws ',')
    (hlen : 3 ≤ (strSplit pair ':').length) :
    ∃ msg, validate_parameters around fromOpt toOpt lines follow select_clause
      (some ws) = .error (.ValidationError msg) := by
  obtain ⟨a, b, c, rest, hsplit⟩ :
      ∃ a b c rest, strSplit pair ':' = a :: b :: c :: rest := by
    rcases hl : strSplit pair ':' with _ | ⟨a, _ | ⟨b, _ | ⟨c, rest⟩⟩⟩ <;>
      rw [hl] at hlen <;> simp at hlen
    exact ⟨a, b, c, rest, rfl⟩
  have hpe : parse_where_pair pair = .error (.ValidationError
      ("Invalid where clause format. Expected field:value, got " ++ pair)) := by
    unfold parse_where_pair
    rw [hsplit]
  have hw : ∃ msg, parse_where (some ws) = .error (.ValidationError msg) := by
    unfold parse_where
    by_cases hemp : strIsEmpty ws
    · refine ⟨"Where clause cannot be empty", ?_⟩
      simp [hemp]
    · obtain ⟨msg, hm⟩ := collectPairs_error _ pair hmem _ hpe
      exact ⟨msg, by simp [hemp, hm, Except.map]⟩
  cases hs : parse_select select_clause with
  | error e =>
    obtain ⟨msg, rfl⟩ := parse_select_error_shape _ _ hs
    exact ⟨msg, by simp [validate_parameters, hs, Bind.bind, Except.bind]⟩
  | ok sf =>
    obtain ⟨msg, hm⟩ := hw
    exact ⟨msg, by simp [validate_parameters, hs, hm, Bind.bind, Except.bind]⟩

theorem C10_where_value_with_colon_witness :
    ∃ msg, validate_parameters Option.none Option.none Option.none 10 false
      Option.none (some "url:http://host") = .error (.ValidationError msg) :=
  C10_where_value_with_colon Option.none Option.none Option.none 10 false
    Option.none "url:http://host" "url:http://host" (by decide) (by decide)

/-! ## Claim C8 -/

/-- C8 counterexample: in From mode the requested line count 4294967295
(`u32::MAX`) is accepted by validation, yet the resulting budget equals the
unbounded sentinel, so `should_stop` never decrements it nor stops — the
budget is not enforced, contradicting the claim that in every mode other
than FromTo/Follow every accepted count gives a bounded, enforced budget. -/
theorem C8_counterexample :
    validate_parameters Option.none (some "2024-01-01") Option.none U32_MAX
      false Option.none Option.none = .ok ⟨.From, Option.none, Option.none⟩
    ∧ (ExtractionParameters.from_mode ⟨.From, Option.none, Option.none⟩
        U32_MAX Option.none Option.none).map
        (fun p => (p.total_docs, p.should_stop 1000 p.total_docs))
      = .ok (U32_MAX, (false, U32_MAX)) :=
  ⟨rfl, rfl⟩

/-- C8 (amended): polling between batches holds iff the mode is Follow, and
the total document budget is treated as unbounded iff the mode is FromTo or
Follow or the requested line count is itself the sentinel 4294967295
(`u32::MAX`, accepted in From/None modes, where it collides with the
unbounded marker); whenever the budget is not the sentinel and the run is
not polling, `should_stop` enforces it by saturating subtraction. -/
theorem C8_amended (v : ValidationResult) (lines : Nat)
    (around toOpt : Option String) (p : ExtractionParameters)
    (h : ExtractionParameters.from_mode v lines around toOpt = .ok p) :
    (p.sleep_between_batches = true ↔ v.mode = .Follow)
    ∧ (p.total_docs = U32_MAX ↔
        (v.mode = .FromTo ∨ v.mode = .Follow ∨ lines = U32_MAX))
    ∧ (∀ hits remaining, p.sleep_between_batches = false → remaining ≠ U32_MAX →
        p.should_stop hits remaining
          = (decide (remaining - u32cast hits = 0), remaining - u32cast hits)) := by
  unfold ExtractionParameters.from_mode at h
  cases hm : v.mode <;> rw [hm] at h <;> injection h with h <;> subst h <;>
    refine ⟨by simp [hm], by simp [hm], fun hits remaining hs hr => ?_⟩ <;>
    simp_all [ExtractionParameters.should_stop]

theorem C8_amended_witness :
    (⟨false, U32_MAX, Option.none, Option.none, Option.none, sortTsAsc, false⟩ :
        ExtractionParameters).total_docs = U32_MAX
      ↔ (ParameterCombination.From = .FromTo ∨ ParameterCombination.From = .Follow
          ∨ U32_MAX = U32_MAX) :=
  (C8_amended ⟨.From, Option.none, Option.none⟩ U32_MAX Option.none Option.none
    _ rfl).2.1

/-! ## Claim C9 -/

/-- C9 counterexample: the builder options are not independently settable —
setting the sort order to descending time and then enabling the snapshot
reference with `with_pit true` yields a built request whose sort clause is
the compound PIT sort, not the sort order that was set. -/
theorem C9_counterexample :
    ((SearchQueryBuilder.new.with_sort_order sortTsDesc).with_pit
      true).build.getD "sort" ≠ sortTsDesc := by
  have h : ((SearchQueryBuilder.new.with_sort_order sortTsDesc).with_pit
      true).build.getD "sort" = sortTsAscShardAsc := rfl
  rw [h]
  simp [sortTsAscShardAsc, sortTsDesc]

/-- C9 (amended): all builder setters are independent except that
`with_pit true` additionally overwrites the sort order with the compound
PIT sort. In particular a sort order set after `with_pit true`, or set and
followed by `with_pit false`, survives to the built request, while a sort
order set before `with_pit true` is replaced; `with_pit` and
`with_sort_order` leave every other option unchanged. -/
theorem C9_amended (b : SearchQueryBuilder) (s : Json) :
    ((b.with_sort_order s).with_pit false).build.getD "sort" = s
    ∧ ((b.with_pit true).with_sort_order s).build.getD "sort" = s
    ∧ ((b.with_sort_order s).with_pit true).build.getD "sort" = sortTsAscShardAsc
    ∧ (∀ u : Bool, (b.with_pit u).size = b.size
        ∧ (b.with_pit u).source_fields = b.source_fields
        ∧ (b.with_pit u).search_after = b.search_after
        ∧ (b.with_pit u).query_range = b.query_range
        ∧ (b.with_pit u).query_match = b.query_match)
    ∧ ((b.with_sort_order s).size = b.size
        ∧ (b.with_sort_order s).source_fields = b.source_fields
        ∧ (b.with_sort_order s).search_after = b.search_after
        ∧ (b.with_sort_order s).query_range = b.query_range
        ∧ (b.with_sort_order s).query_match = b.query_match
        ∧ (b.with_sort_order s).use_pit = b.use_pit) := by
  refine ⟨?_, ?_, ?_, fun u => ?_, ?_⟩ <;>
    first
      | (cases u <;> simp [SearchQueryBuilder.with_pit,
          SearchQueryBuilder.with_sort_order])
      | simp [build_getD_sort, SearchQueryBuilder.with_pit,
          SearchQueryBuilder.with_sort_order]

/-! ## Claim C3 -/

/-- C3 counterexample: in Follow mode the plan sets `use_pit = false`, so
the command opens no server-side snapshot at all (zero PIT open requests),
contradicting the claim that Follow paginates inside a snapshot refreshed
on every polling iteration. -/
theorem C3_counterexample :
    (ExtractionParameters.from_mode ⟨.Follow, Option.none, Option.none⟩ 10
        Option.none Option.none).map
        (fun p => (p.use_pit, p.sleep_between_batches)) = .ok (false, true)
    ∧ (run_cat_snapshot false (some (some "token")) true true).1.open_reqs = 0 :=
  ⟨rfl, rfl⟩

/-- C3 (amended): in Follow mode the command paginates without any
server-side snapshot — the plan sets `use_pit = false`, so no PIT is opened
(and hence none is refreshed) — while each polling iteration never stops
via `should_stop` and sleeps a fixed 1-second interval before continuing
unconditionally. -/
theorem C3_amended (v : ValidationResult) (lines : Nat)
    (around toOpt : Option String) (p : ExtractionParameters)
    (hmode : v.mode = .Follow)
    (h : ExtractionParameters.from_mode v lines around toOpt = .ok p) :
    p.use_pit = false
    ∧ p.sleep_between_batches = true
    ∧ (∀ hits remaining, p.should_stop hits remaining = (false, remaining))
    ∧ POLL_SLEEP_SECS = 1
    ∧ (∀ createResp bodyOk closeOk,
        (run_cat_snapshot p.use_pit createResp bodyOk closeOk).1.open_reqs = 0) := by
  unfold ExtractionParameters.from_mode at h
  rw [hmode] at h
  injection h with h
  subst h
  exact ⟨rfl, rfl, fun hits remaining => rfl, rfl, fun cr bo co => rfl⟩

theorem C3_amended_witness :
    (⟨false, U32_MAX, Option.none, Option.none, some ⟨Option.none, 10⟩,
        sortTsAsc, true⟩ : ExtractionParameters).use_pit = false :=
  (C3_amended ⟨.Follow, Option.none, Option.none⟩ 10 Option.none Option.none
    _ rfl rfl).1

/-! ## Claim C2 -/

theorem cat_request_sort (qb : SearchQueryBuilder) (size : Nat)
    (cursor : Option Json) :
    (cat_request qb size cursor).getD "sort" = qb.sort_order := by
  unfold cat_request
  cases cursor <;>
    simp [build_getD_sort, SearchQueryBuilder.with_size,
      SearchQueryBuilder.with_search_after]

/-- C2 counterexample: in From mode the forward batch requests carry the
single-field sort `[timestamp asc]`, not the compound sort with the
per-shard tiebreaker, contradicting the claim that every mode's forward
pagination uses the compound sort. -/
theorem C2_counterexample :
    ((cat_prepare demoParse (fun _ => Option.none) Option.none
        (some "2024-01-01") Option.none 10 false Option.none Option.none).map
      (fun r => (cat_request r.2.2 (min r.2.1.total_docs BATCH_SIZE)
        r.2.1.search_after).getD "sort")) = .ok sortTsAsc
    ∧ sortTsAsc ≠ sortTsAscShardAsc :=
  ⟨rfl, by simp [sortTsAsc, sortTsAscShardAsc]⟩

/-- C2 (amended): forward batch requests carry the compound sort (timestamp
ascending then per-shard tiebreaker ascending) exactly when the plan uses a
PIT, which holds iff the mode is Around, To or FromTo; in From, Follow and
None modes every forward request carries the single-field sort timestamp
ascending, with no tiebreaker. -/
theorem C2_amended (v : ValidationResult) (lines : Nat)
    (around toOpt : Option String) (p : ExtractionParameters)
    (h : ExtractionParameters.from_mode v lines around toOpt = .ok p)
    (parseDate : String → Option String) (fromOpt toOpt2 : Option String)
    (qb : SearchQueryBuilder)
    (hq : ((((SearchQueryBuilder.new.with_sort_order p.sort_order).with_pit
        p.use_pit).with_query_match p.query_match).with_source_fields
        v.select_fields).with_time_range parseDate fromOpt toOpt2 LATENCY
        = .ok qb) :
    (∀ size cursor, (cat_request qb size cursor).getD "sort"
      = (if p.use_pit then sortTsAscShardAsc else sortTsAsc))
    ∧ (p.use_pit = true ↔ (v.mode = .Around ∨ v.mode = .To ∨ v.mode = .FromTo)) := by
  obtain ⟨hsort, -, -, -, -, -, -⟩ := with_time_range_fields _ _ _ _ _ _ hq
  unfold ExtractionParameters.from_mode at h
  cases hm : v.mode <;> rw [hm] at h <;> injection h with h <;> subst h <;>
    refine ⟨fun size cursor => ?_, by simp [hm]⟩ <;>
    rw [cat_request_sort, hsort] <;>
    simp [SearchQueryBuilder.with_sort_order, SearchQueryBuilder.with_pit,
      SearchQueryBuilder.with_query_match, SearchQueryBuilder.with_source_fields]

theorem C2_amended_witness :
    (⟨false, 10, Option.none, Option.none, Option.none, sortTsAsc, false⟩ :
        ExtractionParameters).use_pit = true
      ↔ (ParameterCombination.From = .Around ∨ ParameterCombination.From = .To
          ∨ ParameterCombination.From = .FromTo) :=
  (C2_amended ⟨.From, Option.none, Option.none⟩ 10 Option.none Option.none
    _ rfl demoParse (some "2024-01-01") Option.none _ rfl).2

/-! ## Claim C5 -/

/-- C5 counterexample: snapshot close is not unconditionally idempotent. In
`delete_pit` the `?` on the send fires before `self.pit_id = None`, so after
a FAILED close the id is retained, and a second close sends another close
request (the call count rises from 1 to 2) instead of being a no-op. -/
theorem C5_counterexample :
    (delete_pit false (⟨some "token", 1, 0⟩ : ClientState)).1.close_reqs = 1
    ∧ (delete_pit true
        ((delete_pit false (⟨some "token", 1, 0⟩ : ClientState)).1)).1.close_reqs
      = 2
    ∧ delete_pit true ((delete_pit false (⟨some "token", 1, 0⟩ : ClientState)).1)
      ≠ (((delete_pit false (⟨some "token", 1, 0⟩ : ClientState)).1),
          Option.none) :=
  ⟨rfl, rfl, by decide⟩

/-- C5 (amended): a close with no open snapshot is a no-op, and a second
close after a SUCCESSFUL close is a no-op; after a failed close request the
snapshot id is retained, so a subsequent close sends another close request
rather than being a no-op. Once a snapshot was opened, every exit path of
the command (create failure, body failure, normal completion) issues
exactly one close request for the one open request, and zero of each when
no snapshot is used; a failing close request is reported to diagnostics but
never changes the command result. -/
theorem C5_snapshot_close (use_pit : Bool) (createResp : Option (Option String))
    (bodyOk closeOk : Bool) :
    (∀ (s : ClientState) (ok : Bool), s.pit_id = Option.none →
      delete_pit ok s = (s, Option.none))
    ∧ (∀ s : ClientState, ((delete_pit true s).1).pit_id = Option.none)
    ∧ (∀ s : ClientState, delete_pit closeOk ((delete_pit true s).1)
        = ((delete_pit true s).1, Option.none))
    ∧ (use_pit = true → (∃ id, createResp = some (some id)) →
        (run_cat_snapshot use_pit createResp bodyOk closeOk).1.open_reqs = 1
        ∧ (run_cat_snapshot use_pit createResp bodyOk closeOk).1.close_reqs = 1)
    ∧ (use_pit = false →
        (run_cat_snapshot use_pit createResp bodyOk closeOk).1.open_reqs = 0
        ∧ (run_cat_snapshot use_pit createResp bodyOk closeOk).1.close_reqs = 0)
    ∧ (run_cat_snapshot use_pit createResp bodyOk true).2
        = (run_cat_snapshot use_pit createResp bodyOk false).2
    ∧ (∀ s : ClientState, s.pit_id.isSome → (drop_client false s).2 = true)
    ∧ (∀ (s : ClientState) (id : String), s.pit_id = some id →
        ((delete_pit false s).1.pit_id = some id
         ∧ (delete_pit false s).1.close_reqs = s.close_reqs + 1
         ∧ (delete_pit true
             ((delete_pit false s).1)).1.close_reqs = s.close_reqs + 2)) := by
  refine ⟨fun s ok hs => ?_, fun s => ?_, fun s => ?_, fun hu hc => ?_,
    fun hu => ?_, ?_, fun s hs => ?_, fun s id hid => ?_⟩
  · simp [delete_pit, hs]
  · cases hpid : s.pit_id <;> simp [delete_pit, hpid]
  · cases hpid : s.pit_id <;> simp [delete_pit, hpid]
  · obtain ⟨id, rfl⟩ := hc
    subst hu
    cases bodyOk <;> cases closeOk <;>
      simp [run_cat_snapshot, create_pit, drop_client, delete_pit,
        ClientState.new]
  · subst hu
    cases bodyOk <;> cases closeOk <;>
      simp [run_cat_snapshot, create_pit, drop_client, delete_pit,
        ClientState.new]
  · cases use_pit <;> rcases createResp with _ | ⟨_ | id⟩ <;> cases bodyOk <;>
      simp [run_cat_snapshot, create_pit, drop_client, delete_pit,
        ClientState.new]
  · cases hpid : s.pit_id with
    | none => rw [hpid] at hs; cases hs
    | some id => simp [drop_client, delete_pit, hpid]
  · simp [delete_pit, hid]

theorem C5_snapshot_close_witness :
    (run_cat_snapshot true (some (some "token")) true true).1.open_reqs = 1
    ∧ (run_cat_snapshot true (some (some "token")) true true).1.close_reqs = 1 :=
  (C5_snapshot_close true (some (some "token")) true true).2.2.2.1 rfl
    ⟨"token", rfl⟩

/-! ## Claim C6 -/

/-- C6 counterexample: in Around mode an anchor string the date parser
rejects does not fail the command — the probe silently returns no cursor,
the command preparation succeeds, and pagination would proceed with the
anchor constraint dropped. -/
theorem C6_counterexample :
    (cat_prepare (fun _ => Option.none) (fun _ => Option.none) (some "garbage")
        Option.none Option.none 10 false Option.none Option.none).map
      (fun r => r.2.1.search_after) = .ok Option.none :=
  rfl

/-- C6 (amended): an unparseable range-start or range-end string fails the
command fast with a DateParseError when the time range is built, before any
batch is requested; but an unparseable anchor string does not — the anchor
probe is skipped, the command proceeds with no starting cursor, and the
anchor constraint is silently dropped. -/
theorem C6_amended (parseDate : String → Option String)
    (search : Json → Option Json) (s : String)
    (hs : parseDate s = Option.none) :
    (∀ lines, cat_prepare parseDate search Option.none (some s) Option.none
        lines false Option.none Option.none
      = .error (.DateParseError ("Invalid from date: " ++ s)))
    ∧ cat_prepare parseDate search Option.none Option.none (some s) 10 false
        Option.none Option.none
      = .error (.DateParseError ("Invalid to date: " ++ s))
    ∧ (cat_prepare parseDate search (some s) Option.none Option.none 10
          false Option.none Option.none).map (fun r => r.2.1.search_after)
        = .ok Option.none := by
  refine ⟨fun lines => ?_, ?_, ?_⟩
  · simp [cat_prepare, validate_parameters, parse_select, parse_where,
      resolve_mode, ExtractionParameters.from_mode, seek_origin,
      seek_origin_request, SearchQueryBuilder.with_time_range, hs,
      Bind.bind, Except.bind, pure, Except.pure]
  · simp [cat_prepare, validate_parameters, parse_select, parse_where,
      resolve_mode, ExtractionParameters.from_mode, seek_origin,
      seek_origin_request, SearchQueryBuilder.with_time_range, hs,
      Bind.bind, Except.bind, pure, Except.pure, MAX_NUMBER_OF_LINES,
      DEFAULT_NUMBER_OF_LINES]
  · simp [cat_prepare, validate_parameters, parse_select, parse_where,
      resolve_mode, ExtractionParameters.from_mode, seek_origin,
      seek_origin_request, SearchQueryBuilder.with_time_range, hs,
      Bind.bind, Except.bind, pure, Except.pure, Except.map,
      MAX_NUMBER_OF_LINES, DEFAULT_NUMBER_OF_LINES]

theorem C6_amended_witness :
    cat_prepare demoParse (fun _ => Option.none) Option.none Option.none
      (some "garbage") 10 false Option.none Option.none
    = .error (.DateParseError ("Invalid to date: " ++ "garbage")) :=
  (C6_amended demoParse (fun _ => Option.none) "garbage" rfl).2.1

/-! ## Claim C7 -/

/-- C7 counterexample: in None mode (likewise Follow) the plan specifies an
anchor probe, yet the probe request is sorted by descending time alone —
`[timestamp desc]` with no stable tiebreaker — contradicting the claim that
every probe request is reverse-sorted with a tiebreaker. -/
theorem C7_counterexample :
    (ExtractionParameters.from_mode ⟨.none, Option.none, Option.none⟩ 10
        Option.none Option.none).map
      (fun p => (seek_origin_request demoParse p).map (fun q => q.getD "sort"))
      = .ok (some sortTsDesc)
    ∧ sortTsDesc ≠ sortTsDescShardAsc :=
  ⟨rfl, by simp [sortTsDesc, sortTsDescShardAsc]⟩

/-- C7 (amended): when the plan specifies an anchor probe, the probe request
has size requested_count/2 + 1 for Around and requested_count + 1 for To,
fetches no document body, and bounds time above by the anchor when given
and by now-minus-latency otherwise; it is sorted by descending time with
the per-shard tiebreaker exactly in the PIT modes Around and To, while the
Follow/None probes sort by descending time alone. The probe returns the
sort key of the last hit of the result set, and nothing when the probe
yields no hits, no hit array, or the request fails. (The hypothesis that
`parseDate` is closed on its own RFC3339 rendering models the round-trip
behaviour of the external date parser.) -/
theorem C7_amended (parseDate : String → Option String)
    (v : ValidationResult) (lines : Nat) (around toOpt : Option String)
    (p : ExtractionParameters) (hwf : v.where_filters = Option.none)
    (h : ExtractionParameters.from_mode v lines around toOpt = .ok p) :
    (∀ s rfc, v.mode = .Around → around = some s → parseDate s = some rfc →
      parseDate rfc = some rfc →
      ∃ q, seek_origin_request parseDate p = some q
        ∧ q.getD "sort" = sortTsDescShardAsc
        ∧ q.getD "size" = .num (lines / 2 + 1)
        ∧ q.getD "_source" = .bool false
        ∧ q.getD "query" = .obj [("range", .obj [("@timestamp",
            .obj [("lt", .str rfc)])])])
    ∧ (∀ s rfc, v.mode = .To → toOpt = some s → parseDate s = some rfc →
      parseDate rfc = some rfc →
      ∃ q, seek_origin_request parseDate p = some q
        ∧ q.getD "sort" = sortTsDescShardAsc
        ∧ q.getD "size" = .num (lines + 1)
        ∧ q.getD "_source" = .bool false
        ∧ q.getD "query" = .obj [("range", .obj [("@timestamp",
            .obj [("lt", .str rfc)])])])
    ∧ ((v.mode = .Follow ∨ v.mode = .none) →
      ∃ q, seek_origin_request parseDate p = some q
        ∧ q.getD "sort" = sortTsDesc
        ∧ q.getD "size" = .num (lines + 1)
        ∧ q.getD "_source" = .bool false
        ∧ q.getD "query" = .obj [("range", .obj [("@timestamp",
            .obj [("lt", .str ("now-" ++ LATENCY))])])])
    ∧ (∀ search q, seek_origin_request parseDate p = some q →
        (search q = Option.none → seek_origin parseDate search p = Option.none)
        ∧ (∀ resp, search q = some resp →
            (((resp.getD "hits").getD "hits").asArray = Option.none →
              seek_origin parseDate search p = Option.none)
            ∧ (((resp.getD "hits").getD "hits").asArray = some [] →
              seek_origin parseDate search p = Option.none)
            ∧ (∀ pre last, ((resp.getD "hits").getD "hits").asArray
                = some (pre ++ [last]) →
              seek_origin parseDate search p = some (last.getD "sort")))) := by
  refine ⟨fun s rfc hm ha hps hround => ?_, fun s rfc hm ht hps hround => ?_,
    fun hm => ?_, fun search q hq => ?_⟩
  · unfold ExtractionParameters.from_mode at h
    rw [hm] at h
    injection h with h
    subst h
    subst ha
    simp only [seek_origin_request, hps, hround, hwf, gen_query_match,
      SearchQueryBuilder.with_time_range, SearchQueryBuilder.with_size,
      SearchQueryBuilder.with_source_fields, SearchQueryBuilder.with_pit,
      SearchQueryBuilder.with_query_match, SearchQueryBuilder.with_sort_order,
      SearchQueryBuilder.new, if_true, if_false]
    exact ⟨_, rfl, rfl, rfl, rfl, rfl⟩
  · unfold ExtractionParameters.from_mode at h
    rw [hm] at h
    injection h with h
    subst h
    subst ht
    simp only [seek_origin_request, hps, hround, hwf, gen_query_match,
      SearchQueryBuilder.with_time_range, SearchQueryBuilder.with_size,
      SearchQueryBuilder.with_source_fields, SearchQueryBuilder.with_pit,
      SearchQueryBuilder.with_query_match, SearchQueryBuilder.with_sort_order,
      SearchQueryBuilder.new, if_true, if_false]
    exact ⟨_, rfl, rfl, rfl, rfl, rfl⟩
  · unfold ExtractionParameters.from_mode at h
    rcases hm with hm | hm <;> rw [hm] at h <;> injection h with h <;>
      subst h <;>
      simp only [seek_origin_request, hwf, gen_query_match,
        SearchQueryBuilder.with_time_range, SearchQueryBuilder.with_size,
        SearchQueryBuilder.with_source_fields, SearchQueryBuilder.with_pit,
        SearchQueryBuilder.with_query_match, SearchQueryBuilder.with_sort_order,
        SearchQueryBuilder.new, if_true, if_false] <;>
      exact ⟨_, rfl, rfl, rfl, rfl, rfl⟩
  · refine ⟨fun hsearch => ?_, fun resp hresp => ⟨fun hno => ?_,
      fun hemp => ?_, fun pre last hlast => ?_⟩⟩
    · simp [seek_origin, hq, hsearch]
    · simp [seek_origin, hq, hresp, hno]
    · simp [seek_origin, hq, hresp, hemp]
    · simp [seek_origin, hq, hresp, hlast, List.getLast?_concat]

theorem C7_amended_witness :
    ∃ q, seek_origin_request demoParse
        (⟨true, 10, Option.none, Option.none,
          some ⟨some "2024-01-01", 10⟩, sortTsAscShardAsc, false⟩ :
          ExtractionParameters) = some q
      ∧ q.getD "sort" = sortTsDescShardAsc
      ∧ q.getD "size" = .num (10 + 1)
      ∧ q.getD "_source" = .bool false
      ∧ q.getD "query" = .obj [("range", .obj [("@timestamp",
          .obj [("lt", .str "2024-01-01T00:00:00+00:00")])])] :=
  (C7_amended demoParse ⟨.To, Option.none, Option.none⟩ 10 Option.none
    (some "2024-01-01") _ rfl rfl).2.1 "2024-01-01"
    "2024-01-01T00:00:00+00:00" rfl rfl rfl rfl

/-! ## Claim C1 -/

theorem full_batch_aux_zero (cap : Nat) : ∀ f, full_batch_aux cap f 0 = [] := by
  intro f
  cases f <;> rfl

theorem full_batch_aux_eq (cap : Nat) (hc : 0 < cap) :
    ∀ b f g, b ≤ f → b ≤ g →
      full_batch_aux cap f b = full_batch_aux cap g b := by
  intro b
  induction b using Nat.strong_induction_on with
  | _ b ih =>
    intro f g hf hg
    match b, f, g with
    | 0, f, g => rw [full_batch_aux_zero, full_batch_aux_zero]
    | b + 1, f + 1, g + 1 =>
      show min (b + 1) cap :: full_batch_aux cap f ((b + 1) - min (b + 1) cap)
        = min (b + 1) cap :: full_batch_aux cap g ((b + 1) - min (b + 1) cap)
      have hlt : (b + 1) - min (b + 1) cap < b + 1 := by omega
      rw [ih _ hlt f g (by omega) (by omega)]

theorem full_batch_trace_succ (cap : Nat) (hc : 0 < cap) (b : Nat)
    (hb : 0 < b) :
    full_batch_trace cap b
      = min b cap :: full_batch_trace cap (b - min b cap) := by
  obtain ⟨c, rfl⟩ : ∃ c, b = c + 1 := ⟨b - 1, by omega⟩
  show min (c + 1) cap :: full_batch_aux cap c ((c + 1) - min (c + 1) cap) = _
  rw [full_batch_aux_eq cap hc ((c + 1) - min (c + 1) cap) c
    ((c + 1) - min (c + 1) cap) (by omega) (le_refl _)]
  rfl

theorem full_batch_trace_shape (cap : Nat) (hc : 0 < cap) :
    ∀ b, 0 < b → full_batch_trace cap b
      = List.replicate (b / cap) cap
        ++ (if b % cap = 0 then [] else [b % cap]) := by
  intro b
  induction b using Nat.strong_induction_on with
  | _ b ih =>
    intro hb
    rw [full_batch_trace_succ cap hc b hb]
    by_cases hle : b ≤ cap
    · have hmin : min b cap = b := by omega
      rw [hmin, Nat.sub_self]
      have h0 : full_batch_trace cap 0 = [] := rfl
      rw [h0]
      rcases Nat.lt_or_ge b cap with hlt | hge
      · rw [Nat.div_eq_of_lt hlt, Nat.mod_eq_of_lt hlt]
        simp [Nat.pos_iff_ne_zero.mp hb]
      · have hbc : b = cap := by omega
        subst hbc
        rw [Nat.div_self hc, Nat.mod_self]
        simp
    · push_neg at hle
      have hmin : min b cap = cap := by omega
      rw [hmin, ih (b - cap) (by omega) (by omega)]
      have hdiv : b / cap = (b - cap) / cap + 1 :=
        Nat.div_eq_sub_div hc (by omega)
      have hmod : b % cap = (b - cap) % cap := Nat.mod_eq_sub_mod (by omega)
      rw [hdiv, ← hmod]
      simp [List.replicate_succ]

theorem full_batch_trace_length (cap : Nat) (hc : 0 < cap) (b : Nat)
    (hb : 0 < b) :
    (full_batch_trace cap b).length = (b + cap - 1) / cap := by
  rw [full_batch_trace_shape cap hc b hb, List.length_append,
    List.length_replicate]
  have hqr : cap * (b / cap) + b % cap = b := Nat.div_add_mod b cap
  have hlt : b % cap < cap := Nat.mod_lt _ hc
  by_cases hm : b % cap = 0
  · have h1 : b + cap - 1 = cap * (b / cap) + (cap - 1) := by omega
    rw [h1, Nat.mul_add_div hc,
      Nat.div_eq_of_lt (show cap - 1 < cap by omega)]
    simp [hm]
  · have hexp : cap * (b / cap + 1) = cap * (b / cap) + cap := by ring
    have h1 : b + cap - 1 = cap * (b / cap + 1) + (b % cap - 1) := by omega
    rw [h1, Nat.mul_add_div hc,
      Nat.div_eq_of_lt (show b % cap - 1 < cap by omega)]
    simp [hm]

theorem cat_loop_full (cap : Nat) (hc : 0 < cap) (p : ExtractionParameters)
    (hsleep : p.sleep_between_batches = false) :
    ∀ b, 0 < b → b < U32_MAX →
      cat_loop_budget cap p b (full_batch_trace cap b)
        = (full_batch_trace cap b, true) := by
  intro b
  induction b using Nat.strong_induction_on with
  | _ b ih =>
    intro hb hbmax
    rw [full_batch_trace_succ cap hc b hb]
    have hmin0 : ¬ (min b cap = 0) := by omega
    have hcast : u32cast (min b cap) = min b cap := by
      unfold u32cast U32_MAX at *
      omega
    have hne : b ≠ U32_MAX := by omega
    by_cases hr : b - min b cap = 0
    · have htail : full_batch_trace cap (b - min b cap) = [] := by
        rw [hr]
        rfl
      rw [htail]
      simp [cat_loop_budget, hsleep, hmin0, ExtractionParameters.should_stop,
        hne, hcast, hr]
    · have hrec := ih (b - min b cap) (by omega) (by omega) (by omega)
      simp [cat_loop_budget, hsleep, hmin0, ExtractionParameters.should_stop,
        hne, hcast, hr, hrec]

/-- C1: in a non-polling run with a bounded budget, each iteration of the
pagination loop requests a batch of size min(remainingBudget, 1000),
subtracts the hits received from the budget saturating at zero, and breaks
exactly when the batch is empty or the budget reaches zero; consequently a
bounded budget of B served in full batches of cap C issues ceil(B/C)
requests of sizes C, ..., C followed by B mod C when C does not divide B
(the last full batch of size C otherwise). -/
theorem C1_pagination (p : ExtractionParameters)
    (hsleep : p.sleep_between_batches = false)
    (remaining hits : Nat) (rest : List Nat)
    (hrem : remaining ≠ U32_MAX) (hh : hits < 4294967296)
    (B C : Nat) (hB : 0 < B) (hBmax : B < U32_MAX) (hC : 0 < C) :
    (cat_loop_budget BATCH_SIZE p remaining (hits :: rest)
      = if hits = 0 ∨ remaining - hits = 0
        then ([min remaining BATCH_SIZE], true)
        else (min remaining BATCH_SIZE
            :: (cat_loop_budget BATCH_SIZE p (remaining - hits) rest).1,
          (cat_loop_budget BATCH_SIZE p (remaining - hits) rest).2))
    ∧ cat_loop_budget C p B (full_batch_trace C B) = (full_batch_trace C B, true)
    ∧ full_batch_trace C B
      = List.replicate (B / C) C ++ (if B % C = 0 then [] else [B % C])
    ∧ (full_batch_trace C B).length = (B + C - 1) / C := by
  refine ⟨?_, cat_loop_full C hC p hsleep B hB hBmax,
    full_batch_trace_shape C hC B hB, full_batch_trace_length C hC B hB⟩
  have hcast : u32cast hits = hits := Nat.mod_eq_of_lt hh
  by_cases h0 : hits = 0
  · subst h0
    simp [cat_loop_budget, hsleep]
  · by_cases hz : remaining - hits = 0 <;>
      simp [cat_loop_budget, hsleep, h0, hz,
        ExtractionParameters.should_stop, hrem, hcast]

theorem C1_pagination_witness :
    full_batch_trace 10 25 = List.replicate 2 10 ++ [5] :=
  (C1_pagination
    ⟨false, 25, Option.none, Option.none, Option.none, sortTsAsc, false⟩
    rfl 25 10 [10, 5] (by decide) (by decide) 25 10 (by decide) (by decide)
    (by decide)).2.2.1

end Esq
